import Mathlib

/-!
Verification of the knative-scaling autoscaling controller.

The development shallowly embeds the parts of the repository the claims
concern:

* the Kubernetes quantity-string parsers of `src/pipeline/pipeline.py`
  (`parse_cpu`, `parse_memory`) and `src/pipeline/get_resources.py`
  (`parse_cpu_usage`, `parse_memory_usage`);
* the inference client `get_action_from_model` of `src/pipeline/ML.py`;
* the action-translation and apply logic of `main` in
  `src/pipeline/pipeline.py`;
* the two gym environments `KubernetesEnv` of `src/experiments/model.py`
  (traffic-based linear-cost dynamics, banded reward) and
  `src/model/model.py` (concurrency-based saturating-exponential dynamics,
  Gaussian CPU reward).

Python ints are embedded as `ℤ`, Python floats as `ℚ` where the code only
performs field operations and comparisons (exact for the values that
arise), and as `ℝ` where the code applies `exp`.  Fallible code returns
`Option`.
-/

/-! ## Quantity-string parsing

Python's `float(...)` applied to the decimal literals these parsers see.
Parsing failure (Python `ValueError`) is `none`. -/

/-- Python `s.endswith(u)` on the character lists of the two strings. -/
def endsWithL (s u : List Char) : Bool := u.isSuffixOf s

/-- Python `s[:-n]` (drop the last `n` characters). -/
def dropRightL (s : List Char) (n : ℕ) : List Char := s.take (s.length - n)

/-- Digits of a decimal numeral to a natural number; `none` when the list is
empty or contains a non-digit. -/
def digitsToNat : List Char → Option ℕ
  | [] => none
  | cs => cs.foldl
      (fun acc c =>
        acc.bind fun n => if c.isDigit then some (10 * n + (c.toNat - 48)) else none)
      (some 0)

/-- Embedding of Python `float(s)` on the plain decimal strings that the
quantity parsers pass to it: an optional sign, an integer part, and an
optional fractional part. -/
def pyFloat (s : List Char) : Option ℚ :=
  let core (t : List Char) : Option ℚ :=
    match t.splitOn '.' with
    | [w] => (digitsToNat w).map (fun n => (n : ℚ))
    | [w, f] =>
        match digitsToNat w, digitsToNat f with
        | some n, some m => some ((n : ℚ) + (m : ℚ) / (10 : ℚ) ^ f.length)
        | _, _ => none
    | _ => none
  match s with
  | '-' :: rest => (core rest).map (fun q => -q)
  | cs => core cs

/-- Embeds `parse_cpu` from `src/pipeline/pipeline.py`: `"500m"`-style strings to
millicores; a bare number is cores multiplied by 1000. -/
def parse_cpu (cpu_str : String) : Option ℚ :=
  if endsWithL cpu_str.data ['m'] then pyFloat (dropRightL cpu_str.data 1)
  else (pyFloat cpu_str.data).map (· * 1000)

/-- Embeds `parse_memory` from `src/pipeline/pipeline.py`: converts `Ki/Mi/Gi/Ti`
suffixed strings to MiB (the dict is iterated in insertion order); a bare
number is already MiB. -/
def parse_memory (mem_str : String) : Option ℚ :=
  if endsWithL mem_str.data ['K', 'i'] then (pyFloat (dropRightL mem_str.data 2)).map (· * (1 / 1024))
  else if endsWithL mem_str.data ['M', 'i'] then (pyFloat (dropRightL mem_str.data 2)).map (· * 1)
  else if endsWithL mem_str.data ['G', 'i'] then (pyFloat (dropRightL mem_str.data 2)).map (· * 1024)
  else if endsWithL mem_str.data ['T', 'i'] then (pyFloat (dropRightL mem_str.data 2)).map (· * 1048576)
  else pyFloat mem_str.data

/-- Embeds `parse_cpu_usage` from `src/pipeline/get_resources.py`: metrics-API CPU
strings (`n`, `u`, `m`, or bare cores) to millicores. -/
def parse_cpu_usage (cpu_str : String) : Option ℚ :=
  if endsWithL cpu_str.data ['n'] then (pyFloat (dropRightL cpu_str.data 1)).map (· / 1000000)
  else if endsWithL cpu_str.data ['u'] then (pyFloat (dropRightL cpu_str.data 1)).map (· / 1000)
  else if endsWithL cpu_str.data ['m'] then pyFloat (dropRightL cpu_str.data 1)
  else (pyFloat cpu_str.data).map (· * 1000)

/-- Embeds `parse_memory_usage` from `src/pipeline/get_resources.py`: metrics-API
memory strings to bytes, with binary (`Ki..Ti`) and decimal (`K..T`) units
checked in the dict's insertion order; a bare number is raw bytes. -/
def parse_memory_usage (memory_str : String) : Option ℚ :=
  if endsWithL memory_str.data ['K', 'i'] then (pyFloat (dropRightL memory_str.data 2)).map (· * 1024)
  else if endsWithL memory_str.data ['M', 'i'] then (pyFloat (dropRightL memory_str.data 2)).map (· * 1024 ^ 2)
  else if endsWithL memory_str.data ['G', 'i'] then (pyFloat (dropRightL memory_str.data 2)).map (· * 1024 ^ 3)
  else if endsWithL memory_str.data ['T', 'i'] then (pyFloat (dropRightL memory_str.data 2)).map (· * 1024 ^ 4)
  else if endsWithL memory_str.data ['K'] then (pyFloat (dropRightL memory_str.data 1)).map (· * 1000)
  else if endsWithL memory_str.data ['M'] then (pyFloat (dropRightL memory_str.data 1)).map (· * 1000 ^ 2)
  else if endsWithL memory_str.data ['G'] then (pyFloat (dropRightL memory_str.data 1)).map (· * 1000 ^ 3)
  else if endsWithL memory_str.data ['T'] then (pyFloat (dropRightL memory_str.data 1)).map (· * 1000 ^ 4)
  else pyFloat memory_str.data

/-- Evaluation of the embedded `float(...)` on the numerals appearing in the
parser scenarios. -/
theorem pyFloat_one : pyFloat ['1'] = some 1 := by
  simp +decide [pyFloat, digitsToNat]

theorem pyFloat_250 : pyFloat ['2', '5', '0'] = some 250 := by
  simp +decide [pyFloat, digitsToNat]

theorem pyFloat_256 : pyFloat ['2', '5', '6'] = some 256 := by
  simp +decide [pyFloat, digitsToNat]

/-! ## Controller: inference client and cycle outcome -/

/-- The per-cycle copy of the Knative service settings fetched by
`get_knative_service_settings` and mutated by `main` in
`src/pipeline/pipeline.py` (scales as integers; parsed resource quantities
as exact rationals, CPU in millicores and memory in MiB). -/
structure ScalingConfig where
  min_scale : ℤ
  max_scale : ℤ
  cpu_request : ℚ
  memory_request : ℚ
  cpu_limit : ℚ
  memory_limit : ℚ
  deriving DecidableEq, Repr

/-- The possible outcomes of the inference call in
`get_action_from_model` (`src/pipeline/ML.py`): a 2xx response whose JSON
body may or may not contain an `action` field, a non-2xx response
(`raise_for_status` raises `HTTPError`), or a connection failure
(`requests.post` raises). -/
inductive InferenceResponse where
  | ok (action : Option ℤ)
  | httpError
  | connectionError
  deriving DecidableEq

/-- Embeds `get_action_from_model` from `src/pipeline/ML.py`: returns the action
from a successful response; a missing `action` field raises `ValueError`,
which — like `HTTPError` and connection errors — is caught, and the
function returns `None`. -/
def get_action_from_model : InferenceResponse → Option ℤ
  | .ok (some a) => some a
  | .ok none => none
  | .httpError => none
  | .connectionError => none

/-- The action-translation `elif` chain of `main` in
`src/pipeline/pipeline.py` (lines 113–138): actions 0–4 produce the updated
settings that are passed on to `change_settings.py`; any other action hits
the final `else`, which returns from `main` before the mutation
(`none`). -/
def translateAction (action : ℤ) (c : ScalingConfig) : Option ScalingConfig :=
  if action = 0 then some c
  else if action = 1 then
    some { c with max_scale := c.max_scale + 1, min_scale := c.max_scale + 1 }
  else if action = 2 then
    some { c with max_scale := max 1 (c.max_scale - 1), min_scale := max 1 (c.max_scale - 1) }
  else if action = 3 then
    some { c with
      cpu_request := c.cpu_request * 2, memory_request := c.memory_request * 2,
      cpu_limit := c.cpu_limit * 2, memory_limit := c.memory_limit * 2 }
  else if action = 4 then
    some { c with
      cpu_request := max 100 (c.cpu_request / 2), memory_request := max 128 (c.memory_request / 2),
      cpu_limit := max 100 (c.cpu_limit / 2), memory_limit := max 128 (c.memory_limit / 2) }
  else none

/-- How a controller cycle ends, from the action-handling part of `main`
(`src/pipeline/pipeline.py`): `applied c` means `change_settings.py` (the
Cluster Mutator) is invoked with the translated settings `c`;
the two aborted outcomes are the early `return`s taken when the model
yields no action (line 107) and when the action is unknown (line 136). -/
inductive CycleResult where
  | applied (c : ScalingConfig)
  | abortedNoAction
  | abortedUnknownAction
  deriving DecidableEq

/-- The action-handling tail of `main` in `src/pipeline/pipeline.py`: abort
when the inference client returned `None`, abort on an unknown action, and
otherwise invoke the mutator on the translated settings. -/
def runCycle (action : Option ℤ) (c : ScalingConfig) : CycleResult :=
  match action with
  | none => .abortedNoAction
  | some a =>
    match translateAction a c with
    | none => .abortedUnknownAction
    | some c' => .applied c'

/-! ## Environment simulators

Both `KubernetesEnv` classes (in `src/experiments/model.py` and
`src/model/model.py`) keep `num_pods` as a Python int and the per-pod
allocations as Python floats; the action branches only add, halve, double,
and clamp these, so `ℤ`/`ℚ` model them exactly.  The derived observation of
the experiments environment is rational arithmetic, embedded in `ℚ`; the
model environment applies `exp`, so its observation and reward live in
`ℝ`. -/

/-- Field `self.MAX_PODS` set in `__init__` of both environments. -/
def MAX_PODS : ℤ := 100

/-- Field `self.MAX_CPU_PER_POD` set in `__init__` of both environments. -/
def MAX_CPU_PER_POD : ℚ := 1000

/-- Field `self.MAX_MEM_PER_POD` set in `__init__` of both environments. -/
def MAX_MEM_PER_POD : ℚ := 256

/-- Embeds `get_value_at_timestep` (identical in both environments): a quadratic
load curve peaking at `peak_value` mid-episode. -/
def get_value_at_timestep {α : Type} [Field α] (t total_timesteps peak_value : α) : α :=
  peak_value * (1 - (2 * (t / total_timesteps) - 1) ^ 2)

/-- The observation vector of the experiments environment
(`self.state` in `src/experiments/model.py`):
`[cpu_usage %, mem_usage %, traffic/s, latency ms, num_pods, cpu_per_pod,
memory_per_pod]`. -/
structure ExpObs where
  cpu_usage : ℚ
  mem_usage : ℚ
  traffic : ℚ
  latency : ℚ
  num_pods : ℚ
  cpu_per_pod : ℚ
  memory_per_pod : ℚ
  deriving DecidableEq, Repr

/-- Instance state of `KubernetesEnv` in `src/experiments/model.py`. -/
structure ExpEnv where
  num_pods : ℤ
  cpu_per_pod : ℚ
  memory_per_pod : ℚ
  state : ExpObs
  max_steps : ℤ
  current_step : ℤ
  deriving DecidableEq, Repr

/-- Embeds `reset` of the experiments environment (the seed only reseeds numpy,
which the deterministic dynamics never consult). -/
def expReset : ExpEnv :=
  { num_pods := 1, cpu_per_pod := 200, memory_per_pod := 64,
    state := ⟨10, 10, 0, 100, 1, 200, 64⟩, max_steps := 100, current_step := 0 }

/-- Embeds `_simulate_environment` of `src/experiments/model.py`: traffic from the
load curve (peak 10000), per-request costs 0.2 CPU / 0.003 memory, per-pod
overheads 0.76 CPU / 12.0 memory, latency `100 / num_pods`. -/
def expSimulateEnvironment (e : ExpEnv) : ExpObs :=
  let traffic := get_value_at_timestep (e.current_step : ℚ) (e.max_steps : ℚ) 10000
  let cpu_per_request : ℚ := 0.2
  let mem_per_request : ℚ := 0.003
  let base_cpu_consumption : ℚ := 0.76
  let base_mem_consumption : ℚ := 12.0
  let traffic_per_pod := traffic / (e.num_pods : ℚ)
  let cpu_needed_per_pod := traffic_per_pod * cpu_per_request
  let mem_needed_per_pod := traffic_per_pod * mem_per_request
  let cpu_usage_per_pod := ((base_cpu_consumption + cpu_needed_per_pod) / e.cpu_per_pod) * 100
  let mem_usage_per_pod := ((base_mem_consumption + mem_needed_per_pod) / e.memory_per_pod) * 100
  { cpu_usage := cpu_usage_per_pod, mem_usage := mem_usage_per_pod, traffic := traffic,
    latency := 100 / (e.num_pods : ℚ), num_pods := (e.num_pods : ℚ),
    cpu_per_pod := e.cpu_per_pod, memory_per_pod := e.memory_per_pod }

/-- Embeds `_calculate_reward` of `src/experiments/model.py`, as a function of the
state entries it reads (`state[0]`, `state[1]`, `state[3]`) and
`self.num_pods`: banded CPU/memory terms, a `50/latency` term, and a
`15 * num_pods` penalty. -/
def expCalculateReward (cpu_usage mem_usage latency : ℚ) (num_pods : ℤ) : ℚ :=
  100 * (1 - (|cpu_usage - 50| / 25))
    + 100 * (1 - (|mem_usage - 50| / 50))
    + 50 / latency
    - 15 * (num_pods : ℚ)

/-- The tuple returned by `step` (the observation and `info` dict are both
recoverable from `env`). -/
structure ExpStepResult where
  env : ExpEnv
  reward : ℚ
  terminated : Bool
  truncated : Bool
  deriving DecidableEq, Repr

/-- Embeds `step` of `KubernetesEnv` in `src/experiments/model.py`: advance the
step counter, dispatch on the action (the `elif` chain has no `else`, so
any unmatched action falls through with no mutation), recompute the
observation, compute the reward, and report the episode flags. -/
def expStep (e : ExpEnv) (action : ℤ) : ExpStepResult :=
  let e1 : ExpEnv := { e with current_step := e.current_step + 1 }
  let e2 : ExpEnv :=
    if action = 0 then e1
    else if action = 1 then { e1 with num_pods := min MAX_PODS (e1.num_pods + 1) }
    else if action = 2 then { e1 with num_pods := max 1 (e1.num_pods - 1) }
    else if action = 3 then
      { e1 with cpu_per_pod := min (e1.cpu_per_pod * 2) MAX_CPU_PER_POD,
                memory_per_pod := min (e1.memory_per_pod * 2) MAX_MEM_PER_POD }
    else if action = 4 then
      { e1 with cpu_per_pod := max 100 (e1.cpu_per_pod / 2),
                memory_per_pod := max 64 (e1.memory_per_pod / 2) }
    else e1
  let obs := expSimulateEnvironment e2
  let e3 : ExpEnv := { e2 with state := obs }
  { env := e3,
    reward := expCalculateReward obs.cpu_usage obs.mem_usage obs.latency e3.num_pods,
    terminated := false,
    truncated := decide (e3.current_step ≥ e3.max_steps) }

/-- The observation vector of the model environment (`self.state` in
`src/model/model.py`): `[cpu_usage %, mem_usage %, concurrency, latency ms,
num_pods, cpu_per_pod, memory_per_pod]`. -/
structure ModelObs where
  cpu_usage : ℝ
  mem_usage : ℝ
  concurrency : ℝ
  latency : ℝ
  num_pods : ℝ
  cpu_per_pod : ℝ
  memory_per_pod : ℝ

/-- Instance state of `KubernetesEnv` in `src/model/model.py`. -/
structure ModelEnv where
  num_pods : ℤ
  cpu_per_pod : ℚ
  memory_per_pod : ℚ
  state : ModelObs
  max_steps : ℤ
  current_step : ℤ

/-- Embeds `reset` of the model environment. -/
noncomputable def modelReset : ModelEnv :=
  { num_pods := 1, cpu_per_pod := 250, memory_per_pod := 128,
    state := ⟨1, 10, 0, 100, 1, 250, 128⟩, max_steps := 100, current_step := 0 }

/-- Embeds `_simulate_environment` of `src/model/model.py`: concurrency from the
load curve (peak 100), saturating-exponential total CPU
`1500 * (1 - exp(-0.05 * concurrency))`, memory `21.5 * num_pods`, latency
`0.24 * concurrency`. -/
noncomputable def modelSimulateEnvironment (e : ModelEnv) : ModelObs :=
  let concurrency : ℝ := get_value_at_timestep (e.current_step : ℝ) (e.max_steps : ℝ) 100
  let total_cpu : ℝ := 1500 * (1 - Real.exp (-0.05 * concurrency))
  let total_mem : ℝ := 21.5 * (e.num_pods : ℝ)
  let cpu_needed_per_pod := total_cpu / (e.num_pods : ℝ)
  let mem_needed_per_pod := total_mem / (e.num_pods : ℝ)
  let cpu_usage_per_pod := (cpu_needed_per_pod / (e.cpu_per_pod : ℝ)) * 100
  let mem_usage_per_pod := (mem_needed_per_pod / (e.memory_per_pod : ℝ)) * 100
  { cpu_usage := cpu_usage_per_pod, mem_usage := mem_usage_per_pod,
    concurrency := concurrency, latency := 0.24 * concurrency,
    num_pods := (e.num_pods : ℝ), cpu_per_pod := (e.cpu_per_pod : ℝ),
    memory_per_pod := (e.memory_per_pod : ℝ) }

/-- Embeds `_calculate_reward` of `src/model/model.py`, as a function of the state
entries it unpacks (`state[0]`–`state[3]`; `mem_usage` and `latency` are
unpacked but unused) and `self.num_pods`: a Gaussian CPU-usage term around
80% and a reward `1/(1+toy_latency)` for the toy latency
`alpha + beta * concurrency/num_pods + gamma * num_pods`. -/
noncomputable def modelCalculateReward
    (cpu_usage mem_usage concurrency latency : ℝ) (num_pods : ℤ) : ℝ :=
  let target_cpu : ℝ := 80.0
  let sigma_cpu : ℝ := 10.0
  let cpu_reward := Real.exp (-((cpu_usage - target_cpu) / sigma_cpu) ^ 2)
  let alpha : ℝ := 10.0
  let beta : ℝ := 0.05
  let gamma : ℝ := 0.1
  let concurrency_per_pod :=
    if 0 < num_pods then concurrency / (num_pods : ℝ) else concurrency
  let toy_latency := alpha + beta * concurrency_per_pod + gamma * (num_pods : ℝ)
  let toy_latency_reward := 1.0 / (1.0 + toy_latency)
  0.5 * cpu_reward + 0.5 * toy_latency_reward

/-- The tuple returned by `step` of the model environment. -/
structure ModelStepResult where
  env : ModelEnv
  reward : ℝ
  terminated : Bool
  truncated : Bool

/-- Embeds `step` of `KubernetesEnv` in `src/model/model.py`: identical control
structure to the experiments environment's `step` (same action branches and
clamps, no `else` on the `elif` chain), with this file's dynamics and
reward. -/
noncomputable def modelStep (e : ModelEnv) (action : ℤ) : ModelStepResult :=
  let e1 : ModelEnv := { e with current_step := e.current_step + 1 }
  let e2 : ModelEnv :=
    if action = 0 then e1
    else if action = 1 then { e1 with num_pods := min MAX_PODS (e1.num_pods + 1) }
    else if action = 2 then { e1 with num_pods := max 1 (e1.num_pods - 1) }
    else if action = 3 then
      { e1 with cpu_per_pod := min (e1.cpu_per_pod * 2) MAX_CPU_PER_POD,
                memory_per_pod := min (e1.memory_per_pod * 2) MAX_MEM_PER_POD }
    else if action = 4 then
      { e1 with cpu_per_pod := max 100 (e1.cpu_per_pod / 2),
                memory_per_pod := max 64 (e1.memory_per_pod / 2) }
    else e1
  let obs := modelSimulateEnvironment e2
  let e3 : ModelEnv := { e2 with state := obs }
  { env := e3,
    reward := modelCalculateReward obs.cpu_usage obs.mem_usage obs.concurrency obs.latency e3.num_pods,
    terminated := false,
    truncated := decide (e3.current_step ≥ e3.max_steps) }

/-! ## Helper lemmas about `step` -/

/-- Effect of `step` on `num_pods` (experiments environment). -/
theorem expStep_num_pods (e : ExpEnv) (a : ℤ) :
    (expStep e a).env.num_pods =
      if a = 1 then min MAX_PODS (e.num_pods + 1)
      else if a = 2 then max 1 (e.num_pods - 1)
      else e.num_pods := by
  unfold expStep
  split_ifs <;> simp_all

/-- Effect of `step` on `cpu_per_pod` (experiments environment). -/
theorem expStep_cpu (e : ExpEnv) (a : ℤ) :
    (expStep e a).env.cpu_per_pod =
      if a = 3 then min (e.cpu_per_pod * 2) MAX_CPU_PER_POD
      else if a = 4 then max 100 (e.cpu_per_pod / 2)
      else e.cpu_per_pod := by
  unfold expStep
  split_ifs <;> simp_all

/-- Effect of `step` on `memory_per_pod` (experiments environment). -/
theorem expStep_mem (e : ExpEnv) (a : ℤ) :
    (expStep e a).env.memory_per_pod =
      if a = 3 then min (e.memory_per_pod * 2) MAX_MEM_PER_POD
      else if a = 4 then max 64 (e.memory_per_pod / 2)
      else e.memory_per_pod := by
  unfold expStep
  split_ifs <;> simp_all

/-- Lemma: `step` always advances the step counter (experiments environment). -/
theorem expStep_current_step (e : ExpEnv) (a : ℤ) :
    (expStep e a).env.current_step = e.current_step + 1 := by
  unfold expStep
  split_ifs <;> rfl

/-- Lemma: `step` never changes `max_steps` (experiments environment). -/
theorem expStep_max_steps (e : ExpEnv) (a : ℤ) :
    (expStep e a).env.max_steps = e.max_steps := by
  unfold expStep
  split_ifs <;> rfl

/-- The flags returned by `step` (experiments environment). -/
theorem expStep_flags (e : ExpEnv) (a : ℤ) :
    (expStep e a).terminated = false ∧
    (expStep e a).truncated = decide (e.current_step + 1 ≥ e.max_steps) := by
  unfold expStep
  split_ifs <;> exact ⟨rfl, rfl⟩

/-- Effect of `step` on `num_pods` (model environment). -/
theorem modelStep_num_pods (m : ModelEnv) (a : ℤ) :
    (modelStep m a).env.num_pods =
      if a = 1 then min MAX_PODS (m.num_pods + 1)
      else if a = 2 then max 1 (m.num_pods - 1)
      else m.num_pods := by
  unfold modelStep
  split_ifs <;> simp_all

/-- Effect of `step` on `cpu_per_pod` (model environment). -/
theorem modelStep_cpu (m : ModelEnv) (a : ℤ) :
    (modelStep m a).env.cpu_per_pod =
      if a = 3 then min (m.cpu_per_pod * 2) MAX_CPU_PER_POD
      else if a = 4 then max 100 (m.cpu_per_pod / 2)
      else m.cpu_per_pod := by
  unfold modelStep
  split_ifs <;> simp_all

/-- Effect of `step` on `memory_per_pod` (model environment). -/
theorem modelStep_mem (m : ModelEnv) (a : ℤ) :
    (modelStep m a).env.memory_per_pod =
      if a = 3 then min (m.memory_per_pod * 2) MAX_MEM_PER_POD
      else if a = 4 then max 64 (m.memory_per_pod / 2)
      else m.memory_per_pod := by
  unfold modelStep
  split_ifs <;> simp_all

/-- Lemma: `step` always advances the step counter (model environment). -/
theorem modelStep_current_step (m : ModelEnv) (a : ℤ) :
    (modelStep m a).env.current_step = m.current_step + 1 := by
  unfold modelStep
  split_ifs <;> rfl

/-- Lemma: `step` never changes `max_steps` (model environment). -/
theorem modelStep_max_steps (m : ModelEnv) (a : ℤ) :
    (modelStep m a).env.max_steps = m.max_steps := by
  unfold modelStep
  split_ifs <;> rfl

/-- The flags returned by `step` (model environment). -/
theorem modelStep_flags (m : ModelEnv) (a : ℤ) :
    (modelStep m a).terminated = false ∧
    (modelStep m a).truncated = decide (m.current_step + 1 ≥ m.max_steps) := by
  unfold modelStep
  split_ifs <;> exact ⟨rfl, rfl⟩

/-! ## C4 and C5: controller failure handling -/

/-- C4: a controller cycle in which the inference endpoint returns an
action outside `{0,1,2,3,4}` ends as aborted with the unknown-action error,
never invokes the Cluster Mutator (`change_settings.py`), leaves the
fetched settings untranslated, and is distinguishable from a `NoOp` cycle
(which does invoke the mutator, with the unchanged settings). -/
theorem unknown_action_aborts (a : ℤ) (c : ScalingConfig)
    (h : a ≠ 0 ∧ a ≠ 1 ∧ a ≠ 2 ∧ a ≠ 3 ∧ a ≠ 4) :
    translateAction a c = none ∧
    runCycle (some a) c = CycleResult.abortedUnknownAction ∧
    (∀ c', runCycle (some a) c ≠ CycleResult.applied c') ∧
    runCycle (some 0) c = CycleResult.applied c ∧
    runCycle (some a) c ≠ runCycle (some 0) c := by
  obtain ⟨h0, h1, h2, h3, h4⟩ := h
  simp [runCycle, translateAction, h0, h1, h2, h3, h4]

/-- Witness for C4 at action 5. -/
theorem unknown_action_aborts_witness :
    ((5 : ℤ) ≠ 0 ∧ (5 : ℤ) ≠ 1 ∧ (5 : ℤ) ≠ 2 ∧ (5 : ℤ) ≠ 3 ∧ (5 : ℤ) ≠ 4) ∧
    (translateAction 5 ⟨1, 1, 250, 128, 250, 128⟩ = none ∧
     runCycle (some 5) ⟨1, 1, 250, 128, 250, 128⟩ = CycleResult.abortedUnknownAction ∧
     (∀ c', runCycle (some 5) ⟨1, 1, 250, 128, 250, 128⟩ ≠ CycleResult.applied c') ∧
     runCycle (some 0) ⟨1, 1, 250, 128, 250, 128⟩ =
       CycleResult.applied ⟨1, 1, 250, 128, 250, 128⟩ ∧
     runCycle (some 5) ⟨1, 1, 250, 128, 250, 128⟩ ≠
       runCycle (some 0) ⟨1, 1, 250, 128, 250, 128⟩) :=
  ⟨by decide, unknown_action_aborts 5 ⟨1, 1, 250, 128, 250, 128⟩ (by decide)⟩

/-- C5: the three inference failure modes — a 2xx response with a
missing/unparseable `action` field, a non-2xx response, and a connection
failure — are handled identically: `get_action_from_model` returns no
action in each case, and the cycle then aborts without any mutation
being attempted. -/
theorem inference_failures_fail_closed (c : ScalingConfig) :
    get_action_from_model (InferenceResponse.ok none) = none ∧
    get_action_from_model InferenceResponse.httpError = none ∧
    get_action_from_model InferenceResponse.connectionError = none ∧
    runCycle (get_action_from_model (InferenceResponse.ok none)) c =
      CycleResult.abortedNoAction ∧
    runCycle (get_action_from_model InferenceResponse.httpError) c =
      CycleResult.abortedNoAction ∧
    runCycle (get_action_from_model InferenceResponse.connectionError) c =
      CycleResult.abortedNoAction ∧
    (∀ c', runCycle (get_action_from_model (InferenceResponse.ok none)) c ≠
      CycleResult.applied c') ∧
    (∀ c', runCycle (get_action_from_model InferenceResponse.httpError) c ≠
      CycleResult.applied c') ∧
    (∀ c', runCycle (get_action_from_model InferenceResponse.connectionError) c ≠
      CycleResult.applied c') := by
  simp [get_action_from_model, runCycle]

/-! ## Episode runs -/

/-- The environment after `reset()` followed by the listed calls to `step`
(experiments environment). -/
def expRun (acts : List ℤ) : ExpEnv :=
  acts.foldl (fun e a => (expStep e a).env) expReset

/-- The environment after `reset()` followed by the listed calls to `step`
(model environment). -/
noncomputable def modelRun (acts : List ℤ) : ModelEnv :=
  acts.foldl (fun e a => (modelStep e a).env) modelReset

theorem expFold_current_step (acts : List ℤ) :
    ∀ e : ExpEnv, (acts.foldl (fun e a => (expStep e a).env) e).current_step =
      e.current_step + acts.length := by
  induction acts with
  | nil => intro e; simp
  | cons a rest ih =>
      intro e
      simp only [List.foldl_cons, List.length_cons, ih, expStep_current_step]
      push_cast
      ring

theorem expFold_max_steps (acts : List ℤ) :
    ∀ e : ExpEnv, (acts.foldl (fun e a => (expStep e a).env) e).max_steps =
      e.max_steps := by
  induction acts with
  | nil => intro e; rfl
  | cons a rest ih => intro e; simp only [List.foldl_cons, ih, expStep_max_steps]

theorem modelFold_current_step (acts : List ℤ) :
    ∀ m : ModelEnv, (acts.foldl (fun m a => (modelStep m a).env) m).current_step =
      m.current_step + acts.length := by
  induction acts with
  | nil => intro m; simp
  | cons a rest ih =>
      intro m
      simp only [List.foldl_cons, List.length_cons, ih, modelStep_current_step]
      push_cast
      ring

theorem modelFold_max_steps (acts : List ℤ) :
    ∀ m : ModelEnv, (acts.foldl (fun m a => (modelStep m a).env) m).max_steps =
      m.max_steps := by
  induction acts with
  | nil => intro m; rfl
  | cons a rest ih => intro m; simp only [List.foldl_cons, ih, modelStep_max_steps]

/-! ## C9: episode truncation -/

/-- C9: starting from `reset()` (step counter 0, `max_steps = 100`), the
`truncated` flag of the `k`-th call to `step` (here `k = acts.length + 1`,
after the earlier calls `acts`) is true exactly when `k ≥ max_steps`, and
`terminated` is false on every call — in both environments, for every
action sequence. -/
theorem truncated_iff_max_steps (acts : List ℤ) (a aM : ℤ) :
    ((expStep (expRun acts) a).truncated = true ↔
      (100 : ℤ) ≤ (acts.length : ℤ) + 1) ∧
    (expStep (expRun acts) a).terminated = false ∧
    ((modelStep (modelRun acts) aM).truncated = true ↔
      (100 : ℤ) ≤ (acts.length : ℤ) + 1) ∧
    (modelStep (modelRun acts) aM).terminated = false := by
  have he := expStep_flags (expRun acts) a
  have hm := modelStep_flags (modelRun acts) aM
  have hc : (expRun acts).current_step = (acts.length : ℤ) := by
    simpa [expRun, expReset] using expFold_current_step acts expReset
  have hs : (expRun acts).max_steps = (100 : ℤ) := by
    simpa [expRun, expReset] using expFold_max_steps acts expReset
  have hcM : (modelRun acts).current_step = (acts.length : ℤ) := by
    simpa [modelRun, modelReset] using modelFold_current_step acts modelReset
  have hsM : (modelRun acts).max_steps = (100 : ℤ) := by
    simpa [modelRun, modelReset] using modelFold_max_steps acts modelReset
  refine ⟨?_, he.1, ?_, hm.1⟩
  · rw [he.2, hc, hs]
    simp [ge_iff_le]
  · rw [hm.2, hcM, hsM]
    simp [ge_iff_le]

/-! ## C10: out-of-range actions in the simulator -/

/-- C10: for any integer action outside `{0,1,2,3,4}`, `step` raises no
error and mutates none of `num_pods`, `cpu_per_pod`, `memory_per_pod`: the
entire returned tuple equals that of a `NoOp` (action 0) call, while the
step counter still advances — in both environments. -/
theorem unknown_action_noop_in_sim (a : ℤ) (e : ExpEnv) (m : ModelEnv)
    (h : a ≠ 0 ∧ a ≠ 1 ∧ a ≠ 2 ∧ a ≠ 3 ∧ a ≠ 4) :
    expStep e a = expStep e 0 ∧
    (expStep e a).env.num_pods = e.num_pods ∧
    (expStep e a).env.cpu_per_pod = e.cpu_per_pod ∧
    (expStep e a).env.memory_per_pod = e.memory_per_pod ∧
    (expStep e a).env.current_step = e.current_step + 1 ∧
    modelStep m a = modelStep m 0 ∧
    (modelStep m a).env.num_pods = m.num_pods ∧
    (modelStep m a).env.cpu_per_pod = m.cpu_per_pod ∧
    (modelStep m a).env.memory_per_pod = m.memory_per_pod ∧
    (modelStep m a).env.current_step = m.current_step + 1 := by
  obtain ⟨h0, h1, h2, h3, h4⟩ := h
  refine ⟨?_, ?_, ?_, ?_, expStep_current_step e a, ?_, ?_, ?_, ?_,
    modelStep_current_step m a⟩
  · unfold expStep; simp [h0, h1, h2, h3, h4]
  · rw [expStep_num_pods]; simp [h1, h2]
  · rw [expStep_cpu]; simp [h3, h4]
  · rw [expStep_mem]; simp [h3, h4]
  · unfold modelStep; simp [h0, h1, h2, h3, h4]
  · rw [modelStep_num_pods]; simp [h1, h2]
  · rw [modelStep_cpu]; simp [h3, h4]
  · rw [modelStep_mem]; simp [h3, h4]

/-- Witness for C10 at action 5, from the two reset states. -/
theorem unknown_action_noop_in_sim_witness :
    ((5 : ℤ) ≠ 0 ∧ (5 : ℤ) ≠ 1 ∧ (5 : ℤ) ≠ 2 ∧ (5 : ℤ) ≠ 3 ∧ (5 : ℤ) ≠ 4) ∧
    (expStep expReset 5 = expStep expReset 0 ∧
     (expStep expReset 5).env.num_pods = expReset.num_pods ∧
     (expStep expReset 5).env.cpu_per_pod = expReset.cpu_per_pod ∧
     (expStep expReset 5).env.memory_per_pod = expReset.memory_per_pod ∧
     (expStep expReset 5).env.current_step = expReset.current_step + 1 ∧
     modelStep modelReset 5 = modelStep modelReset 0 ∧
     (modelStep modelReset 5).env.num_pods = modelReset.num_pods ∧
     (modelStep modelReset 5).env.cpu_per_pod = modelReset.cpu_per_pod ∧
     (modelStep modelReset 5).env.memory_per_pod = modelReset.memory_per_pod ∧
     (modelStep modelReset 5).env.current_step = modelReset.current_step + 1) :=
  ⟨by decide, unknown_action_noop_in_sim 5 expReset modelReset (by decide)⟩

/-! ## C6: bounds are invariant under `step` -/

/-- C6: whenever `num_pods ∈ [1,100]`, `cpu_per_pod ∈ [100,1000]` and
`memory_per_pod ∈ [64,256]`, every action of `step` preserves all three
bounds — in both environments. -/
theorem step_preserves_bounds (e : ExpEnv) (m : ModelEnv) (a : ℤ)
    (he1 : 1 ≤ e.num_pods) (he2 : e.num_pods ≤ 100)
    (he3 : 100 ≤ e.cpu_per_pod) (he4 : e.cpu_per_pod ≤ 1000)
    (he5 : 64 ≤ e.memory_per_pod) (he6 : e.memory_per_pod ≤ 256)
    (hm1 : 1 ≤ m.num_pods) (hm2 : m.num_pods ≤ 100)
    (hm3 : 100 ≤ m.cpu_per_pod) (hm4 : m.cpu_per_pod ≤ 1000)
    (hm5 : 64 ≤ m.memory_per_pod) (hm6 : m.memory_per_pod ≤ 256) :
    (1 ≤ (expStep e a).env.num_pods ∧ (expStep e a).env.num_pods ≤ 100 ∧
     100 ≤ (expStep e a).env.cpu_per_pod ∧ (expStep e a).env.cpu_per_pod ≤ 1000 ∧
     64 ≤ (expStep e a).env.memory_per_pod ∧ (expStep e a).env.memory_per_pod ≤ 256) ∧
    (1 ≤ (modelStep m a).env.num_pods ∧ (modelStep m a).env.num_pods ≤ 100 ∧
     100 ≤ (modelStep m a).env.cpu_per_pod ∧ (modelStep m a).env.cpu_per_pod ≤ 1000 ∧
     64 ≤ (modelStep m a).env.memory_per_pod ∧ (modelStep m a).env.memory_per_pod ≤ 256) := by
  rw [expStep_num_pods, expStep_cpu, expStep_mem,
      modelStep_num_pods, modelStep_cpu, modelStep_mem]
  unfold MAX_PODS MAX_CPU_PER_POD MAX_MEM_PER_POD
  refine ⟨⟨?_, ?_, ?_, ?_, ?_, ?_⟩, ?_, ?_, ?_, ?_, ?_, ?_⟩ <;>
    split_ifs <;>
    (try simp only [le_min_iff, min_le_iff, le_max_iff, max_le_iff]) <;>
    first
      | omega
      | (constructor <;> linarith)
      | linarith
      | (left; linarith)
      | (right; linarith)

/-- Witness for C6 from the two reset states, at action 3. -/
theorem step_preserves_bounds_witness :
    ((1 : ℤ) ≤ expReset.num_pods ∧ expReset.num_pods ≤ 100 ∧
     (100 : ℚ) ≤ expReset.cpu_per_pod ∧ expReset.cpu_per_pod ≤ 1000 ∧
     (64 : ℚ) ≤ expReset.memory_per_pod ∧ expReset.memory_per_pod ≤ 256 ∧
     (1 : ℤ) ≤ modelReset.num_pods ∧ modelReset.num_pods ≤ 100 ∧
     (100 : ℚ) ≤ modelReset.cpu_per_pod ∧ modelReset.cpu_per_pod ≤ 1000 ∧
     (64 : ℚ) ≤ modelReset.memory_per_pod ∧ modelReset.memory_per_pod ≤ 256) ∧
    ((1 ≤ (expStep expReset 3).env.num_pods ∧ (expStep expReset 3).env.num_pods ≤ 100 ∧
      100 ≤ (expStep expReset 3).env.cpu_per_pod ∧ (expStep expReset 3).env.cpu_per_pod ≤ 1000 ∧
      64 ≤ (expStep expReset 3).env.memory_per_pod ∧ (expStep expReset 3).env.memory_per_pod ≤ 256) ∧
     (1 ≤ (modelStep modelReset 3).env.num_pods ∧ (modelStep modelReset 3).env.num_pods ≤ 100 ∧
      100 ≤ (modelStep modelReset 3).env.cpu_per_pod ∧ (modelStep modelReset 3).env.cpu_per_pod ≤ 1000 ∧
      64 ≤ (modelStep modelReset 3).env.memory_per_pod ∧ (modelStep modelReset 3).env.memory_per_pod ≤ 256)) :=
  ⟨by decide,
   step_preserves_bounds expReset modelReset 3
     (by decide) (by decide) (by decide) (by decide) (by decide) (by decide)
     (by decide) (by decide) (by decide) (by decide) (by decide) (by decide)⟩

/-! ## C7: scale round-trip and boundary no-ops -/

/-- C7: from any non-boundary pod count in `[2,99]`, `ScaleUp` followed by
`ScaleDown` restores `num_pods`; `ScaleDown` from 1 leaves 1 and `ScaleUp`
from 100 leaves 100 — in both environments. -/
theorem scaleUp_scaleDown_roundtrip
    (e b1 b2 : ExpEnv) (m c1 c2 : ModelEnv)
    (h1 : 2 ≤ e.num_pods) (h2 : e.num_pods ≤ 99)
    (hb1 : b1.num_pods = 1) (hb2 : b2.num_pods = 100)
    (hm1 : 2 ≤ m.num_pods) (hm2 : m.num_pods ≤ 99)
    (hc1 : c1.num_pods = 1) (hc2 : c2.num_pods = 100) :
    (expStep (expStep e 1).env 2).env.num_pods = e.num_pods ∧
    (expStep b1 2).env.num_pods = 1 ∧
    (expStep b2 1).env.num_pods = 100 ∧
    (modelStep (modelStep m 1).env 2).env.num_pods = m.num_pods ∧
    (modelStep c1 2).env.num_pods = 1 ∧
    (modelStep c2 1).env.num_pods = 100 := by
  simp only [expStep_num_pods, modelStep_num_pods, MAX_PODS]
  norm_num
  omega

/-- Witness for C7 at pod counts 2, 1 and 100. -/
theorem scaleUp_scaleDown_roundtrip_witness :
    ((2 : ℤ) ≤ ({ expReset with num_pods := 2 } : ExpEnv).num_pods ∧
     ({ expReset with num_pods := 2 } : ExpEnv).num_pods ≤ 99 ∧
     expReset.num_pods = 1 ∧
     ({ expReset with num_pods := 100 } : ExpEnv).num_pods = 100 ∧
     (2 : ℤ) ≤ ({ modelReset with num_pods := 2 } : ModelEnv).num_pods ∧
     ({ modelReset with num_pods := 2 } : ModelEnv).num_pods ≤ 99 ∧
     modelReset.num_pods = 1 ∧
     ({ modelReset with num_pods := 100 } : ModelEnv).num_pods = 100) ∧
    ((expStep (expStep { expReset with num_pods := 2 } 1).env 2).env.num_pods =
       ({ expReset with num_pods := 2 } : ExpEnv).num_pods ∧
     (expStep expReset 2).env.num_pods = 1 ∧
     (expStep { expReset with num_pods := 100 } 1).env.num_pods = 100 ∧
     (modelStep (modelStep { modelReset with num_pods := 2 } 1).env 2).env.num_pods =
       ({ modelReset with num_pods := 2 } : ModelEnv).num_pods ∧
     (modelStep modelReset 2).env.num_pods = 1 ∧
     (modelStep { modelReset with num_pods := 100 } 1).env.num_pods = 100) :=
  ⟨by decide,
   scaleUp_scaleDown_roundtrip
     { expReset with num_pods := 2 } expReset { expReset with num_pods := 100 }
     { modelReset with num_pods := 2 } modelReset { modelReset with num_pods := 100 }
     (by decide) (by decide) (by decide) (by decide)
     (by decide) (by decide) (by decide) (by decide)⟩

/-! ## C8: resource saturation -/

/-- One application of the `IncreaseResourcesPerPod` branch, on the
environment (experiments). -/
def expInc (e : ExpEnv) : ExpEnv := (expStep e 3).env

/-- One application of the `DecreaseResourcesPerPod` branch, on the
environment (experiments). -/
def expDec (e : ExpEnv) : ExpEnv := (expStep e 4).env

/-- One application of the `IncreaseResourcesPerPod` branch (model). -/
noncomputable def modelInc (m : ModelEnv) : ModelEnv := (modelStep m 3).env

/-- One application of the `DecreaseResourcesPerPod` branch (model). -/
noncomputable def modelDec (m : ModelEnv) : ModelEnv := (modelStep m 4).env

theorem one_le_two_pow_q (j : ℕ) : (1 : ℚ) ≤ 2 ^ j := by
  calc (1 : ℚ) = 2 ^ 0 := (pow_zero 2).symm
  _ ≤ 2 ^ j := pow_le_pow_right₀ (by norm_num) (Nat.zero_le j)

theorem two_le_two_pow_succ_q (j : ℕ) : (2 : ℚ) ≤ 2 ^ (j + 1) := by
  calc (2 : ℚ) = 2 ^ 1 := (pow_one 2).symm
  _ ≤ 2 ^ (j + 1) := pow_le_pow_right₀ (by norm_num) (by omega)

/-- Iterating `x ↦ min (x*2) 1000` from any `x ≤ 1000` computes
`min (x·2^j) 1000`. -/
theorem iter_min_double (j : ℕ) :
    ∀ x : ℚ, x ≤ 1000 → (fun y : ℚ => min (y * 2) 1000)^[j] x = min (x * 2 ^ j) 1000 := by
  induction j with
  | zero => intro x hx; simpa using min_eq_left hx
  | succ j ih =>
      intro x hx
      rw [Function.iterate_succ_apply, ih _ (min_le_right _ _)]
      rcases le_total (x * 2) 1000 with h | h
      · rw [min_eq_left h]
        congr 1
        ring
      · have hx0 : (0 : ℚ) ≤ x := by linarith
        have hxj : (1000 : ℚ) ≤ x * 2 ^ (j + 1) :=
          le_trans h (mul_le_mul_of_nonneg_left (two_le_two_pow_succ_q j) hx0)
        have hj1 : (1000 : ℚ) ≤ 1000 * 2 ^ j := by
          have := one_le_two_pow_q j
          nlinarith
        rw [min_eq_right h, min_eq_right hj1, min_eq_right hxj]

/-- Iterating `x ↦ max 100 (x/2)` from any `x ≥ 100` computes
`max 100 (x/2^j)`. -/
theorem iter_max_half (j : ℕ) :
    ∀ x : ℚ, 100 ≤ x → (fun y : ℚ => max 100 (y / 2))^[j] x = max 100 (x / 2 ^ j) := by
  induction j with
  | zero => intro x hx; simpa using max_eq_right hx
  | succ j ih =>
      intro x hx
      rw [Function.iterate_succ_apply, ih _ (le_max_left _ _)]
      have hsplit : x / 2 ^ (j + 1) = x / 2 / 2 ^ j := by
        rw [div_div, pow_succ]
        ring_nf
      rcases le_total (x / 2) 100 with h | h
      · have hx2 : (0 : ℚ) ≤ x / 2 := by linarith
        have hp := one_le_two_pow_q j
        have hL : (100 : ℚ) / 2 ^ j ≤ 100 := div_le_self (by norm_num) hp
        have hR : x / 2 ^ (j + 1) ≤ 100 := by
          rw [hsplit]
          exact le_trans (div_le_self hx2 hp) h
        rw [max_eq_left h, max_eq_left hL, max_eq_left hR]
      · rw [max_eq_right h, hsplit]

/-- Lifting: iterating the `Increase` branch on the experiments environment
iterates `min (·*2) 1000` on its `cpu_per_pod`. -/
theorem expInc_iter (j : ℕ) :
    ∀ e : ExpEnv, (expInc^[j] e).cpu_per_pod =
      (fun y : ℚ => min (y * 2) 1000)^[j] e.cpu_per_pod := by
  induction j with
  | zero => intro e; rfl
  | succ j ih =>
      intro e
      rw [Function.iterate_succ_apply, Function.iterate_succ_apply, ih]
      have : (expInc e).cpu_per_pod = min (e.cpu_per_pod * 2) 1000 := by
        unfold expInc
        rw [expStep_cpu]
        simp [MAX_CPU_PER_POD]
      rw [this]

/-- Lifting: iterating the `Decrease` branch on the experiments environment
iterates `max 100 (·/2)` on its `cpu_per_pod`. -/
theorem expDec_iter (j : ℕ) :
    ∀ e : ExpEnv, (expDec^[j] e).cpu_per_pod =
      (fun y : ℚ => max 100 (y / 2))^[j] e.cpu_per_pod := by
  induction j with
  | zero => intro e; rfl
  | succ j ih =>
      intro e
      rw [Function.iterate_succ_apply, Function.iterate_succ_apply, ih]
      have : (expDec e).cpu_per_pod = max 100 (e.cpu_per_pod / 2) := by
        unfold expDec
        rw [expStep_cpu]
        simp
      rw [this]

/-- Lifting, model environment, `Increase` branch. -/
theorem modelInc_iter (j : ℕ) :
    ∀ m : ModelEnv, (modelInc^[j] m).cpu_per_pod =
      (fun y : ℚ => min (y * 2) 1000)^[j] m.cpu_per_pod := by
  induction j with
  | zero => intro m; rfl
  | succ j ih =>
      intro m
      rw [Function.iterate_succ_apply, Function.iterate_succ_apply, ih]
      have : (modelInc m).cpu_per_pod = min (m.cpu_per_pod * 2) 1000 := by
        unfold modelInc
        rw [modelStep_cpu]
        simp [MAX_CPU_PER_POD]
      rw [this]

/-- Lifting, model environment, `Decrease` branch. -/
theorem modelDec_iter (j : ℕ) :
    ∀ m : ModelEnv, (modelDec^[j] m).cpu_per_pod =
      (fun y : ℚ => max 100 (y / 2))^[j] m.cpu_per_pod := by
  induction j with
  | zero => intro m; rfl
  | succ j ih =>
      intro m
      rw [Function.iterate_succ_apply, Function.iterate_succ_apply, ih]
      have : (modelDec m).cpu_per_pod = max 100 (m.cpu_per_pod / 2) := by
        unfold modelDec
        rw [modelStep_cpu]
        simp
      rw [this]

/-- After at least 4 doublings any start in `[100,1000]` is pinned at 1000. -/
theorem min_double_saturates (x : ℚ) (h1 : 100 ≤ x) (h2 : x ≤ 1000)
    (j : ℕ) (hj : 4 ≤ j) :
    (fun y : ℚ => min (y * 2) 1000)^[j] x = 1000 := by
  rw [iter_min_double j x h2]
  have h16 : (16 : ℚ) ≤ 2 ^ j := by
    calc (16 : ℚ) = 2 ^ 4 := by norm_num
    _ ≤ 2 ^ j := pow_le_pow_right₀ (by norm_num) hj
  have : (1000 : ℚ) ≤ x * 2 ^ j := by nlinarith
  rw [min_eq_right this]

/-- After at least 4 halvings any start in `[100,1000]` is pinned at 100. -/
theorem max_half_saturates (x : ℚ) (h1 : 100 ≤ x) (h2 : x ≤ 1000)
    (j : ℕ) (hj : 4 ≤ j) :
    (fun y : ℚ => max 100 (y / 2))^[j] x = 100 := by
  rw [iter_max_half j x h1]
  have h16 : (16 : ℚ) ≤ 2 ^ j := by
    calc (16 : ℚ) = 2 ^ 4 := by norm_num
    _ ≤ 2 ^ j := pow_le_pow_right₀ (by norm_num) hj
  have hpos : (0 : ℚ) < 2 ^ j := by positivity
  have : x / 2 ^ j ≤ 100 := by
    rw [div_le_iff₀ hpos]
    nlinarith
  rw [max_eq_left this]

/-- C8: from any `cpu_per_pod ∈ [100,1000]`, iterating the simulator's
`IncreaseResourcesPerPod` transition reaches the fixpoint 1000 after
finitely many applications (4 suffice) and stays there forever; iterating
`DecreaseResourcesPerPod` symmetrically reaches and keeps 100 — in both
environments. -/
theorem resource_iteration_saturates (e : ExpEnv) (m : ModelEnv)
    (he1 : 100 ≤ e.cpu_per_pod) (he2 : e.cpu_per_pod ≤ 1000)
    (hm1 : 100 ≤ m.cpu_per_pod) (hm2 : m.cpu_per_pod ≤ 1000) :
    (∃ k, ∀ j, k ≤ j → (expInc^[j] e).cpu_per_pod = 1000) ∧
    (∃ k, ∀ j, k ≤ j → (expDec^[j] e).cpu_per_pod = 100) ∧
    (∃ k, ∀ j, k ≤ j → (modelInc^[j] m).cpu_per_pod = 1000) ∧
    (∃ k, ∀ j, k ≤ j → (modelDec^[j] m).cpu_per_pod = 100) := by
  refine ⟨⟨4, fun j hj => ?_⟩, ⟨4, fun j hj => ?_⟩, ⟨4, fun j hj => ?_⟩,
    ⟨4, fun j hj => ?_⟩⟩
  · rw [expInc_iter]; exact min_double_saturates _ he1 he2 j hj
  · rw [expDec_iter]; exact max_half_saturates _ he1 he2 j hj
  · rw [modelInc_iter]; exact min_double_saturates _ hm1 hm2 j hj
  · rw [modelDec_iter]; exact max_half_saturates _ hm1 hm2 j hj

/-- Witness for C8 from the two reset states (cpu 200 and 250). -/
theorem resource_iteration_saturates_witness :
    ((100 : ℚ) ≤ expReset.cpu_per_pod ∧ expReset.cpu_per_pod ≤ 1000 ∧
     (100 : ℚ) ≤ modelReset.cpu_per_pod ∧ modelReset.cpu_per_pod ≤ 1000) ∧
    ((∃ k, ∀ j, k ≤ j → (expInc^[j] expReset).cpu_per_pod = 1000) ∧
     (∃ k, ∀ j, k ≤ j → (expDec^[j] expReset).cpu_per_pod = 100) ∧
     (∃ k, ∀ j, k ≤ j → (modelInc^[j] modelReset).cpu_per_pod = 1000) ∧
     (∃ k, ∀ j, k ≤ j → (modelDec^[j] modelReset).cpu_per_pod = 100)) :=
  ⟨by decide,
   resource_iteration_saturates expReset modelReset
     (by decide) (by decide) (by decide) (by decide)⟩

/-! ## C2: reward monotonicity in `num_pods` -/

/-- C2 (amended): the experiments environment's `_calculate_reward` is
monotonically non-increasing in `num_pods` when the state entries it reads
(cpu usage, memory usage, latency) are held fixed, for any pod counts
`n1 ≤ n2` in `[1, 100]`. -/
theorem expReward_antitone_in_pods (cpu mem lat : ℚ) (n1 n2 : ℤ)
    (h1 : 1 ≤ n1) (h12 : n1 ≤ n2) (h2 : n2 ≤ 100) :
    expCalculateReward cpu mem lat n2 ≤ expCalculateReward cpu mem lat n1 := by
  unfold expCalculateReward
  have h : (n1 : ℚ) ≤ (n2 : ℚ) := by exact_mod_cast h12
  linarith

/-- Witness for the amended C2 at `n1 = 1`, `n2 = 2`. -/
theorem expReward_antitone_in_pods_witness :
    ((1 : ℤ) ≤ 1 ∧ (1 : ℤ) ≤ 2 ∧ (2 : ℤ) ≤ 100) ∧
    expCalculateReward 50 50 100 2 ≤ expCalculateReward 50 50 100 1 :=
  ⟨by decide, expReward_antitone_in_pods 50 50 100 1 2 (by decide) (by decide) (by decide)⟩

/-- Counterexample to C2 as stated: in the model environment
(`src/model/model.py`), with cpu usage 80, memory usage 10, concurrency
100 and latency 24 all held fixed, `_calculate_reward` is strictly larger
at 2 pods than at 1 pod, so the reward is not non-increasing in
`num_pods`. -/
theorem modelReward_not_antitone_cex :
    modelCalculateReward 80 10 100 24 1 < modelCalculateReward 80 10 100 24 2 := by
  unfold modelCalculateReward
  norm_num

/-! ## C1: the translate step vs the simulator's transition rules -/

/-- Modelled from the claim (spec §4.1 applied to the ScalingConfig): scale
actions clamp into `[1, MAX_PODS]` and pin `min_scale`; resource doubling
is capped at `CPU_MAX = 1000` / `MEM_MAX = 256`; halving has floors
`CPU_MIN = 100` / `MEM_MIN = 64`. -/
def claimTranslate (action : ℤ) (c : ScalingConfig) : ScalingConfig :=
  if action = 1 then
    { c with max_scale := min MAX_PODS (c.max_scale + 1),
             min_scale := min MAX_PODS (c.max_scale + 1) }
  else if action = 2 then
    { c with max_scale := max 1 (c.max_scale - 1),
             min_scale := max 1 (c.max_scale - 1) }
  else if action = 3 then
    { c with cpu_request := min (c.cpu_request * 2) 1000,
             memory_request := min (c.memory_request * 2) 256,
             cpu_limit := min (c.cpu_limit * 2) 1000,
             memory_limit := min (c.memory_limit * 2) 256 }
  else if action = 4 then
    { c with cpu_request := max 100 (c.cpu_request / 2),
             memory_request := max 64 (c.memory_request / 2),
             cpu_limit := max 100 (c.cpu_limit / 2),
             memory_limit := max 64 (c.memory_limit / 2) }
  else c

/-- Counterexample to C1 as stated: at `max_scale = 100`, the pipeline's
`ScaleUp` sets `max_scale = 101`, while the simulator rule of the claim
caps it at `MAX_PODS = 100`; so the translate step does not apply the same
transition rules. (The `Increase` caps and the memory floor differ too.) -/
theorem translate_scaleUp_uncapped_cex :
    (translateAction 1 ⟨100, 100, 250, 128, 250, 128⟩).map ScalingConfig.max_scale =
      some 101 ∧
    (claimTranslate 1 ⟨100, 100, 250, 128, 250, 128⟩).max_scale = 100 ∧
    translateAction 1 ⟨100, 100, 250, 128, 250, 128⟩ ≠
      some (claimTranslate 1 ⟨100, 100, 250, 128, 250, 128⟩) := by
  refine ⟨rfl, by decide, ?_⟩
  decide

/-- Modelled from the amended claim: `ScaleUp` increments `max_scale` with
no cap; `ScaleDown` floors it at 1; `IncreaseResourcesPerPod` doubles all
four resource quantities with no cap; `DecreaseResourcesPerPod` halves
them with floors 100 (cpu) and 128 (memory); the two scale actions pin
`min_scale` to the new `max_scale`. -/
def amendedTranslate (action : ℤ) (c : ScalingConfig) : ScalingConfig :=
  if action = 1 then
    { c with max_scale := c.max_scale + 1, min_scale := c.max_scale + 1 }
  else if action = 2 then
    { c with max_scale := max 1 (c.max_scale - 1),
             min_scale := max 1 (c.max_scale - 1) }
  else if action = 3 then
    { c with cpu_request := c.cpu_request * 2,
             memory_request := c.memory_request * 2,
             cpu_limit := c.cpu_limit * 2,
             memory_limit := c.memory_limit * 2 }
  else if action = 4 then
    { c with cpu_request := max 100 (c.cpu_request / 2),
             memory_request := max 128 (c.memory_request / 2),
             cpu_limit := max 100 (c.cpu_limit / 2),
             memory_limit := max 128 (c.memory_limit / 2) }
  else c

/-- C1 (amended): for every action in `{0,1,2,3,4}`, the pipeline's
translate step applies the amended transition rules (uncapped `ScaleUp`
and `Increase`, memory floor 128) and proceeds to the mutator. -/
theorem translate_matches_amended_rules (a : ℤ) (c : ScalingConfig)
    (h : a = 0 ∨ a = 1 ∨ a = 2 ∨ a = 3 ∨ a = 4) :
    translateAction a c = some (amendedTranslate a c) := by
  rcases h with h | h | h | h | h <;> subst h <;>
    simp [translateAction, amendedTranslate]

/-- Witness for the amended C1 at action 1. -/
theorem translate_matches_amended_rules_witness :
    ((1 : ℤ) = 0 ∨ (1 : ℤ) = 1 ∨ (1 : ℤ) = 2 ∨ (1 : ℤ) = 3 ∨ (1 : ℤ) = 4) ∧
    translateAction 1 ⟨1, 1, 250, 128, 250, 128⟩ =
      some (amendedTranslate 1 ⟨1, 1, 250, 128, 250, 128⟩) :=
  ⟨by decide, translate_matches_amended_rules 1 ⟨1, 1, 250, 128, 250, 128⟩ (by decide)⟩

/-! ## C3: quantity-string scenarios -/

/-- Counterexample to C3 as stated: the pipeline's memory parsing function
returns MiB, not bytes — `parse_memory "256Mi"` is `256`, not
`256*1024*1024`. -/
theorem parse_memory_mib_not_bytes_cex :
    parse_memory "256Mi" = some 256 ∧
    parse_memory "256Mi" ≠ some (256 * 1024 * 1024) := by
  have hd : dropRightL "256Mi".data 2 = ['2', '5', '6'] := by decide
  constructor
  · simp +decide [parse_memory, hd, pyFloat_256]
  · simp +decide [parse_memory, hd, pyFloat_256]
    norm_num

/-- C3 (amended): both CPU parsers map `"250m"` to 250 millicores and
`"1"` to 1000 millicores; the metrics memory parser `parse_memory_usage`
maps `"256Mi"` to `256*1024*1024` bytes and `"1Gi"` to `1024^3` bytes; the
pipeline's `parse_memory` works in MiB instead, mapping `"256Mi"` to `256`
and `"1Gi"` to `1024`. -/
theorem parse_functions_amended_values :
    parse_cpu "250m" = some 250 ∧
    parse_cpu "1" = some 1000 ∧
    parse_cpu_usage "250m" = some 250 ∧
    parse_cpu_usage "1" = some 1000 ∧
    parse_memory_usage "256Mi" = some (256 * 1024 * 1024) ∧
    parse_memory_usage "1Gi" = some (1024 ^ 3) ∧
    parse_memory "256Mi" = some 256 ∧
    parse_memory "1Gi" = some 1024 := by
  have hd1 : dropRightL "250m".data 1 = ['2', '5', '0'] := by decide
  have hd2 : dropRightL "256Mi".data 2 = ['2', '5', '6'] := by decide
  have hd3 : dropRightL "1Gi".data 2 = ['1'] := by decide
  refine ⟨?_, ?_, ?_, ?_, ?_, ?_, ?_, ?_⟩
  · simp +decide [parse_cpu, hd1, pyFloat_250]
  · simp +decide [parse_cpu, pyFloat_one]
  · simp +decide [parse_cpu_usage, hd1, pyFloat_250]
  · simp +decide [parse_cpu_usage, pyFloat_one]
  · simp +decide [parse_memory_usage, hd2, pyFloat_256]
    norm_num
  · simp +decide [parse_memory_usage, hd3, pyFloat_one]
  · simp +decide [parse_memory, hd2, pyFloat_256]
  · simp +decide [parse_memory, hd3, pyFloat_one]
